import Mathlib

/-!
Verification of the camera view-state machine of the virtual-office repository.

The repository holds two near-duplicate browser entry points:
  * src/src/main.js        (referred to below as namespace MainJs)
  * src/unnamed/part_000   (referred to below as namespace PartZero)

Both build a three.js scene, orbit a camera around a desk, and on a pick of the
monitor fly the camera to a hard-coded "sitting" pose, opening a DOM overlay on
completion of the tween; an overlay-close action flies the camera back to the
"wide" pose and re-enables the orbit controls on completion.

The shallow embedding below models, per file, the mutable module state touched
by the handlers (camera position, the last camera.lookAt argument, the
OrbitControls target and enabled flag, the overlay "hidden" class, the ui hint,
the resolved monitor mesh reference, the set of in-flight gsap tweens, the idle
timer, the console log) together with two ghost counters (transitions started,
overlay openings) used to state counting properties.  Tween sampling follows
the gsap model: value = start + ease(elapsed/duration) * (end - start), with
ease(1) = 1, so a tween that runs to completion writes its exact end values.
Event handlers become functions on the state; the raycaster, an external
collaborator, is modelled by passing the distance-ordered intersection list to
the pointer handler.
-/

/-- A 3-component vector with exact rational coordinates (stands for the
floating-point THREE.Vector3 of the source; all constants are exact decimals). -/
structure Vec3 where
  x : ℚ
  y : ℚ
  z : ℚ
deriving DecidableEq

/-- gsap interpolation of a single numeric field: start plus eased ratio times
the change. -/
def lerp (a b u : ℚ) : ℚ := a + u * (b - a)

/-- Componentwise interpolation of a vector-valued field triple. -/
def lerpV (a b : Vec3) (u : ℚ) : Vec3 :=
  ⟨lerp a.x b.x u, lerp a.y b.y u, lerp a.z b.z u⟩

/-- The gsap "power2.inOut" easing curve (cubic ease-in / ease-out). -/
def power2InOut (u : ℚ) : ℚ :=
  if u < 1/2 then 4 * u ^ 3 else 1 - (2 - 2 * u) ^ 3 / 2

/-- The gsap "power3.inOut" easing curve (quartic ease-in / ease-out). -/
def power3InOut (u : ℚ) : ℚ :=
  if u < 1/2 then 8 * u ^ 4 else 1 - (2 - 2 * u) ^ 4 / 2

/-- A scene-graph mesh as seen by the pick handlers: a reference identity
(JavaScript object identity, field ref), the three.js uuid, and the name label. -/
structure Mesh where
  ref : ℕ
  uuid : ℕ
  name : String
deriving DecidableEq

/-- Does the character list starting here begin with the pattern? -/
def segStartsWith : List Char → List Char → Bool
  | [], _ => true
  | _ :: _, [] => false
  | p :: ps, c :: cs => (p == c) && segStartsWith ps cs

/-- Scan of a character list for an occurrence of the pattern. -/
def strContainsAux (pat : List Char) : List Char → Bool
  | [] => pat.isEmpty
  | c :: cs => segStartsWith pat (c :: cs) || strContainsAux pat cs

/-- JavaScript String.prototype.includes: substring containment. -/
def strContains (s pat : String) : Bool := strContainsAux pat.data s.data

/-- JavaScript String.prototype.toLowerCase on the ASCII names used here. -/
def lowerStr (s : String) : String := String.mk (s.data.map Char.toLower)

/-- The view-state enumeration of the specification: exactly one of ORBITING,
TRANSITIONING, FOCUSED is active at a time.  TRANSITIONING holds exactly while
a camera tween is in flight. -/
inductive ViewState where
  | orbiting
  | transitioning
  | focused
deriving DecidableEq

namespace MainJs

/-- src/src/main.js line 13. -/
def WIDE_SHOT_POS : Vec3 := ⟨8.5, 23, -36⟩

/-- src/src/main.js line 14. -/
def WIDE_SHOT_TARGET : Vec3 := ⟨6.5, 2.4, -2.2⟩

/-- src/src/main.js line 205 (local constant of focusOnMonitor). -/
def SIT_POS : Vec3 := ⟨-3.4, 6.4, 3.27⟩

/-- src/src/main.js line 206 (local constant of focusOnMonitor). -/
def SIT_TARGET : Vec3 := ⟨-3.44, 6.16, 4.22⟩

/-- The mutable module state of src/src/main.js touched by the handlers,
plus two ghost counters used only to state counting properties. -/
structure MState where
  /-- camera.position. -/
  camPos : Vec3
  /-- the argument of the last camera.lookAt call (the look direction is
  derived from it); initially the controls target via controls.update(). -/
  lookTarget : Vec3
  /-- controls.target (main.js never changes it after startup). -/
  controlsTarget : Vec3
  /-- controls.enabled. -/
  controlsEnabled : Bool
  /-- negation of the "hidden" class on the overlay element. -/
  overlayVisible : Bool
  /-- uiHint.style.display is "block". -/
  uiHintShown : Bool
  /-- the resolved clickable screen reference (line 89, null before load). -/
  monitorMesh : Option Mesh
  /-- number of gsap camera tweens started by focusOnMonitor and not yet
  completed. -/
  focusInflight : ℕ
  /-- number of gsap camera tweens started by the close handler and not yet
  completed. -/
  returnInflight : ℕ
  /-- idleTime (line 267). -/
  idleTime : ℚ
  /-- last (line 287). -/
  lastFrame : ℚ
  /-- ghost: number of renderer.render calls issued. -/
  framesRendered : ℕ
  /-- console messages, newest first. -/
  consoleLog : List String
  /-- whether the GLTF loader already invoked its success or error callback
  (the loader fires exactly one of them, exactly once). -/
  loadSettled : Bool
  /-- ghost: number of camera fly-in transitions started by focusOnMonitor. -/
  transitionsStarted : ℕ
  /-- ghost: number of openOverlay calls. -/
  overlayOpens : ℕ
deriving DecidableEq

/-- Module state right after startup (lines 13-94): camera at the wide pose,
controls enabled and targeting the wide target, overlay hidden, hint shown,
monitor unresolved. -/
def initM : MState :=
  { camPos := WIDE_SHOT_POS
    lookTarget := WIDE_SHOT_TARGET
    controlsTarget := WIDE_SHOT_TARGET
    controlsEnabled := true
    overlayVisible := false
    uiHintShown := true
    monitorMesh := none
    focusInflight := 0
    returnInflight := 0
    idleTime := 0
    lastFrame := 0
    framesRendered := 0
    consoleLog := []
    loadSettled := false
    transitionsStarted := 0
    overlayOpens := 0 }

/-- Lines 188-194: the pick condition.  The nearest hit is accepted when the
monitor reference is resolved AND (the hit is identity-equal to it, or shares
its uuid, or its lowercased name contains "monitor" or "screen").  Note the
name-substring disjuncts sit under the monitorMesh truthiness conjunct. -/
def mainClassify (mm : Option Mesh) (picked : Mesh) : Bool :=
  match mm with
  | none => false
  | some m =>
      picked.ref == m.ref || picked.uuid == m.uuid ||
      strContains (lowerStr picked.name) "monitor" ||
      strContains (lowerStr picked.name) "screen"

/-- Lines 231-237: openOverlay shows the overlay, hides the hint, disables the
controls and focuses the iframe (the focus transfer has no modelled state). -/
def openOverlay (s : MState) : MState :=
  { s with overlayVisible := true, uiHintShown := false, controlsEnabled := false,
           overlayOpens := s.overlayOpens + 1 }

/-- Lines 201-228: focusOnMonitor.  Returns at once when the monitor reference
is unresolved; otherwise disables the controls and starts the gsap position
tween toward SIT_POS (duration 1.2, power3.inOut).  There is no view-state
guard: nothing stops a second call while a tween is in flight. -/
def focusOnMonitor (s : MState) : MState :=
  match s.monitorMesh with
  | none => s
  | some _ =>
      { s with controlsEnabled := false,
               focusInflight := s.focusInflight + 1,
               transitionsStarted := s.transitionsStarted + 1 }

/-- The gsap sample of the focus position tween of lines 214-227 at elapsed
time t from start value p0. -/
def mainFocusSample (p0 : Vec3) (t : ℚ) : Vec3 :=
  lerpV p0 SIT_POS (power3InOut (t / 1.2))

/-- An onUpdate tick of the focus tween (lines 220-222): the position is the
eased sample and camera.lookAt is called with the constant targetLookAt
(= SIT_TARGET) - the look target is NOT interpolated in this file. -/
def mainFocusUpdate (p0 : Vec3) (t : ℚ) (s : MState) : MState :=
  if s.focusInflight = 0 then s
  else { s with camPos := mainFocusSample p0 t, lookTarget := SIT_TARGET }

/-- Completion of one focus tween (lines 220-226): the final tick samples at
elapsed = duration (so the position lands exactly on SIT_POS because the ease
of 1 is 1), then onComplete runs openOverlay. -/
def mainFocusComplete (s : MState) : MState :=
  if s.focusInflight = 0 then s
  else openOverlay
    { s with camPos := mainFocusSample s.camPos 1.2,
             lookTarget := SIT_TARGET,
             focusInflight := s.focusInflight - 1 }

/-- Lines 175-195: onPointerDown.  NDC conversion and raycast are delegated to
the external collaborators; the distance-ordered hit list is the argument.
There is NO controls.enabled guard in this file; the handler reacts to the
nearest hit whenever the classification accepts it. -/
def onPointerDown (intersects : List Mesh) (s : MState) : MState :=
  match intersects with
  | [] => s
  | picked :: _ =>
      if mainClassify s.monitorMesh picked then focusOnMonitor s else s

/-- Lines 240-256: the close-button handler hides the overlay, shows the hint
again and starts the gsap position tween back to WIDE_SHOT_POS (duration 1.0,
power3.inOut). -/
def closeBtnClick (s : MState) : MState :=
  { s with overlayVisible := false, uiHintShown := true,
           returnInflight := s.returnInflight + 1 }

/-- The gsap sample of the return tween of lines 245-255 at elapsed time t. -/
def mainReturnSample (p0 : Vec3) (t : ℚ) : Vec3 :=
  lerpV p0 WIDE_SHOT_POS (power3InOut (t / 1))

/-- An onUpdate tick of the return tween (line 251): eased position sample and
camera.lookAt with the constant wide target. -/
def mainReturnUpdate (p0 : Vec3) (t : ℚ) (s : MState) : MState :=
  if s.returnInflight = 0 then s
  else { s with camPos := mainReturnSample p0 t, lookTarget := WIDE_SHOT_TARGET }

/-- Completion of one return tween (lines 251-254): final sample at elapsed =
duration, then onComplete re-enables the controls. -/
def mainReturnComplete (s : MState) : MState :=
  if s.returnInflight = 0 then s
  else { s with camPos := mainReturnSample s.camPos 1,
                lookTarget := WIDE_SHOT_TARGET,
                returnInflight := s.returnInflight - 1,
                controlsEnabled := true }

/-- Lines 259-263: the keydown listener clicks the close button exactly when
the key is Escape and the overlay is not hidden. -/
def escapeKeyDown (key : String) (s : MState) : MState :=
  if key == "Escape" && s.overlayVisible then closeBtnClick s else s

/-- The procedural fallback screen built by buildProceduralDesk (lines
162-164): a fresh mesh named monitor_screen. -/
def proceduralScreen : Mesh := ⟨1000, 1000, "monitor_screen"⟩

/-- Lines 96-134: the loader success callback resolves monitorMesh to the
child named Screen_Plane_clickable (the resolution result is the argument) and
logs the CRITICAL error when it is absent. -/
def mainLoadSuccess (resolved : Option Mesh) (s : MState) : MState :=
  match resolved with
  | none =>
      { s with monitorMesh := none, loadSettled := true,
               consoleLog := "CRITICAL: could not find the clickable screen object in the model" :: s.consoleLog }
  | some m => { s with monitorMesh := some m, loadSettled := true }

/-- Lines 140-143 with 149-168: the loader error callback logs a warning and
runs buildProceduralDesk, which constructs the fallback scene and resolves
monitorMesh to the procedural screen.  It neither throws nor stops the loop. -/
def mainLoadError (s : MState) : MState :=
  { s with consoleLog := "GLB load failed, building procedural desk instead" :: s.consoleLog,
           monitorMesh := some proceduralScreen,
           loadSettled := true }

/-- Lines 267-279: updateControlsIdle.  It returns at once when the controls
are disabled, otherwise accumulates dt into idleTime and, once idleTime
exceeds 1.5, places the camera on the circular path driven by the wall-clock
argument (Math.sin and Math.cos are the real-valued collaborators sinF, cosF)
looking at the fixed point (0, 1, 0). -/
def updateControlsIdle (sinF cosF : ℚ → ℚ) (dt now : ℚ) (s : MState) : MState :=
  if s.controlsEnabled = false then s
  else
    let s2 := { s with idleTime := s.idleTime + dt }
    if 1.5 < s2.idleTime then
      { s2 with camPos := ⟨sinF (now * 0.00008) * 6, s2.camPos.y, cosF (now * 0.00008) * 6⟩,
                lookTarget := ⟨0, 1, 0⟩ }
    else s2

/-- Line 281: the controls "start" listener resets the idle timer. -/
def controlsStart (s : MState) : MState := { s with idleTime := 0 }

/-- Lines 287-301: one pass of the animate loop.  It computes dt, updates
last, calls controls.update() when the controls are enabled (which, with no
pending user-input impulse, leaves the modelled fields unchanged) and renders.
It does NOT call updateControlsIdle: no statement of the loop body invokes the
idle behaviour. -/
def animateStep (now : ℚ) (s : MState) : MState :=
  { s with lastFrame := now, framesRendered := s.framesRendered + 1 }

/-- The view state of the specification read off the observables: a camera
tween in flight is TRANSITIONING, else a visible overlay is FOCUSED, else
ORBITING. -/
def viewOfM (s : MState) : ViewState :=
  if 0 < s.focusInflight + s.returnInflight then ViewState.transitioning
  else if s.overlayVisible then ViewState.focused
  else ViewState.orbiting

/-- The states of src/src/main.js reachable from startup by the wired event
handlers: the loader callback (success or error, exactly once), canvas
pointer-downs, gsap tween update and completion ticks, the close-button click
(the button sits inside the overlay, so the DOM delivers the click only while
the overlay is visible), keydown events, animation frames, and the controls
"start" event (fired by OrbitControls only while it is enabled). -/
inductive ReachM : MState → Prop where
  | init : ReachM initM
  | load (s : MState) (resolved : Option Mesh) :
      ReachM s → s.loadSettled = false → ReachM (mainLoadSuccess resolved s)
  | loadFail (s : MState) :
      ReachM s → s.loadSettled = false → ReachM (mainLoadError s)
  | pick (s : MState) (hits : List Mesh) :
      ReachM s → ReachM (onPointerDown hits s)
  | focusUpd (s : MState) (p0 : Vec3) (t : ℚ) :
      ReachM s → ReachM (mainFocusUpdate p0 t s)
  | focusDone (s : MState) :
      ReachM s → ReachM (mainFocusComplete s)
  | close (s : MState) :
      ReachM s → s.overlayVisible = true → ReachM (closeBtnClick s)
  | returnUpd (s : MState) (p0 : Vec3) (t : ℚ) :
      ReachM s → ReachM (mainReturnUpdate p0 t s)
  | returnDone (s : MState) :
      ReachM s → ReachM (mainReturnComplete s)
  | key (s : MState) (k : String) :
      ReachM s → ReachM (escapeKeyDown k s)
  | frame (s : MState) (now : ℚ) :
      ReachM s → ReachM (animateStep now s)
  | dragStart (s : MState) :
      ReachM s → s.controlsEnabled = true → ReachM (controlsStart s)

end MainJs

namespace PartZero

/-- src/unnamed/part_000 line 9. -/
def WIDE_SHOT_POS : Vec3 := ⟨11.97, 19.59, -26.95⟩

/-- src/unnamed/part_000 line 10. -/
def WIDE_SHOT_TARGET : Vec3 := ⟨-0.95, 4.7, -2.39⟩

/-- src/unnamed/part_000 line 12. -/
def SIT_POS : Vec3 := ⟨-3.4, 6.4, 3.27⟩

/-- src/unnamed/part_000 line 13. -/
def SIT_TARGET : Vec3 := ⟨-3.44, 6.16, 4.22⟩

/-- The mutable module state of src/unnamed/part_000 touched by the handlers,
plus two ghost counters used only to state counting properties. -/
structure PState where
  /-- camera.position. -/
  camPos : Vec3
  /-- the argument of the last camera.lookAt call; initially the controls
  target via controls.update() in the first frame. -/
  lookTarget : Vec3
  /-- controls.target (tweened together with the position in this file). -/
  controlsTarget : Vec3
  /-- controls.enabled. -/
  controlsEnabled : Bool
  /-- negation of the "hidden" class on the overlay element. -/
  overlayVisible : Bool
  /-- uiHint.style.opacity is 1. -/
  uiHintShown : Bool
  /-- the resolved Monitor_Screen reference (line 85, null before load). -/
  monitorMesh : Option Mesh
  /-- number of in-flight tween PAIRS started by moveToMonitor.  The position
  and target tweens of lines 187-196 share their start tick, duration (1.5)
  and ease (power2.inOut), so they complete on the same frame and are modelled
  as one pair; openOverlay fires on the completion of the target tween. -/
  focusInflight : ℕ
  /-- number of in-flight tween pairs started by returnToOffice
  (lines 201-210, same sharing argument). -/
  returnInflight : ℕ
  /-- ghost: number of renderer.render calls issued. -/
  framesRendered : ℕ
  /-- console messages, newest first. -/
  consoleLog : List String
  /-- whether the GLTF loader already invoked its success or error callback. -/
  loadSettled : Bool
  /-- ghost: number of camera fly-in transitions started by moveToMonitor. -/
  transitionsStarted : ℕ
  /-- ghost: number of openOverlay calls. -/
  overlayOpens : ℕ
deriving DecidableEq

/-- Module state right after startup (lines 9-47): camera at the wide pose,
controls enabled and targeting the wide target, overlay hidden, hint shown,
monitor unresolved. -/
def initP : PState :=
  { camPos := WIDE_SHOT_POS
    lookTarget := WIDE_SHOT_TARGET
    controlsTarget := WIDE_SHOT_TARGET
    controlsEnabled := true
    overlayVisible := false
    uiHintShown := true
    monitorMesh := none
    focusInflight := 0
    returnInflight := 0
    framesRendered := 0
    consoleLog := []
    loadSettled := false
    transitionsStarted := 0
    overlayOpens := 0 }

/-- Line 177: the pick condition.  The nearest hit is accepted when it is
identity-equal to monitorMesh, or its name contains "Desk" or "Screen"
(case-sensitive String.prototype.includes). -/
def partClassify (mm : Option Mesh) (o : Mesh) : Bool :=
  (match mm with
   | some m => o.ref == m.ref
   | none => false) ||
  strContains o.name "Desk" || strContains o.name "Screen"

/-- Lines 185-197 head: moveToMonitor disables the controls and starts the
position and target tween pair toward the SIT pose. -/
def moveToMonitor (s : PState) : PState :=
  { s with controlsEnabled := false,
           focusInflight := s.focusInflight + 1,
           transitionsStarted := s.transitionsStarted + 1 }

/-- Lines 165-182: onPointerDown.  The handler returns at once while the
controls are disabled; otherwise it reacts to the nearest hit of the raycast
(the distance-ordered hit list is the argument) when the classification
accepts it. -/
def onPointerDown (intersects : List Mesh) (s : PState) : PState :=
  if s.controlsEnabled = false then s
  else
    match intersects with
    | [] => s
    | o :: _ => if partClassify s.monitorMesh o then moveToMonitor s else s

/-- Lines 214-219: openOverlay shows the overlay, fades the hint out and
focuses the iframe (no modelled state for the focus transfer).  Unlike the
main.js variant it does not touch controls.enabled. -/
def openOverlay (s : PState) : PState :=
  { s with overlayVisible := true, uiHintShown := false,
           overlayOpens := s.overlayOpens + 1 }

/-- The gsap sample of the focus position tween (lines 187-190) at elapsed
time t from start value p0. -/
def focusPosTrack (p0 : Vec3) (t : ℚ) : Vec3 :=
  lerpV p0 SIT_POS (power2InOut (t / 1.5))

/-- The gsap sample of the focus target tween (lines 191-196) at elapsed
time t from start value tg0. -/
def focusTargetTrack (tg0 : Vec3) (t : ℚ) : Vec3 :=
  lerpV tg0 SIT_TARGET (power2InOut (t / 1.5))

/-- An update tick of the focus tween pair: both tracks are sampled and
camera.lookAt(controls.target) is called with the freshly interpolated
target (line 194). -/
def focusUpdate (p0 tg0 : Vec3) (t : ℚ) (s : PState) : PState :=
  if s.focusInflight = 0 then s
  else { s with camPos := focusPosTrack p0 t,
                controlsTarget := focusTargetTrack tg0 t,
                lookTarget := focusTargetTrack tg0 t }

/-- Completion of one focus tween pair: the final tick samples both tracks at
elapsed = duration (landing exactly on the SIT pose because the ease of 1 is
1), then the onComplete of the target tween runs openOverlay (line 195). -/
def focusComplete (s : PState) : PState :=
  if s.focusInflight = 0 then s
  else openOverlay
    { s with camPos := focusPosTrack s.camPos 1.5,
             controlsTarget := focusTargetTrack s.controlsTarget 1.5,
             lookTarget := focusTargetTrack s.controlsTarget 1.5,
             focusInflight := s.focusInflight - 1 }

/-- Lines 221-224: hideOverlay adds the hidden class back and restores the
hint. -/
def hideOverlay (s : PState) : PState :=
  { s with overlayVisible := false, uiHintShown := true }

/-- Lines 199-211 head: returnToOffice hides the overlay at once, then starts
the position and target tween pair back to the WIDE pose. -/
def returnToOffice (s : PState) : PState :=
  { hideOverlay s with returnInflight := s.returnInflight + 1 }

/-- The gsap sample of the return position tween (lines 201-204). -/
def returnPosTrack (p0 : Vec3) (t : ℚ) : Vec3 :=
  lerpV p0 WIDE_SHOT_POS (power2InOut (t / 1.5))

/-- The gsap sample of the return target tween (lines 205-210). -/
def returnTargetTrack (tg0 : Vec3) (t : ℚ) : Vec3 :=
  lerpV tg0 WIDE_SHOT_TARGET (power2InOut (t / 1.5))

/-- An update tick of the return tween pair (line 208 recomputes the look
direction from the interpolated target). -/
def returnUpdate (p0 tg0 : Vec3) (t : ℚ) (s : PState) : PState :=
  if s.returnInflight = 0 then s
  else { s with camPos := returnPosTrack p0 t,
                controlsTarget := returnTargetTrack tg0 t,
                lookTarget := returnTargetTrack tg0 t }

/-- Completion of one return tween pair: final samples at elapsed = duration,
then the onComplete of the target tween re-enables the controls (line 209). -/
def returnComplete (s : PState) : PState :=
  if s.returnInflight = 0 then s
  else { s with camPos := returnPosTrack s.camPos 1.5,
                controlsTarget := returnTargetTrack s.controlsTarget 1.5,
                lookTarget := returnTargetTrack s.controlsTarget 1.5,
                returnInflight := s.returnInflight - 1,
                controlsEnabled := true }

/-- Lines 89-155: the loader success callback resolves monitorMesh to the
child whose name contains Monitor_Screen (the resolution result is the first
argument) and logs the warning when no Target_Desk anchor is found. -/
def partLoadSuccess (resolved : Option Mesh) (anchorFound : Bool) (s : PState) : PState :=
  { s with monitorMesh := resolved,
           loadSettled := true,
           consoleLog :=
             if anchorFound then s.consoleLog
             else "Could not find Target_Desk. Check Blender naming!" :: s.consoleLog }

/-- Lines 156-158: the loader error callback only logs the error; monitorMesh
stays unresolved and nothing else changes - the handler neither throws nor
stops the loop. -/
def partLoadError (s : PState) : PState :=
  { s with consoleLog := "An error happened" :: s.consoleLog,
           loadSettled := true }

/-- Lines 229-234: one pass of the animate loop (controls.update plus
render). -/
def partAnimate (s : PState) : PState :=
  { s with framesRendered := s.framesRendered + 1 }

/-- part_000 registers no keydown listener (its only listeners are the canvas
pointerdown of line 182, the close-button click of line 226 and the resize of
line 236), so a keyboard event - Escape included - dispatches with no handler
and leaves the module state unchanged. -/
def keyDown (_key : String) (s : PState) : PState := s

/-- The view state of the specification read off the observables, as for
main.js. -/
def viewOfP (s : PState) : ViewState :=
  if 0 < s.focusInflight + s.returnInflight then ViewState.transitioning
  else if s.overlayVisible then ViewState.focused
  else ViewState.orbiting

/-- The states of src/unnamed/part_000 reachable from startup by the wired
event handlers.  The close-button listener (line 226) can only fire while the
overlay is visible, because the button sits inside the display-hidden overlay
element; the loader fires exactly one callback exactly once. -/
inductive ReachP : PState → Prop where
  | init : ReachP initP
  | load (s : PState) (resolved : Option Mesh) (anchorFound : Bool) :
      ReachP s → s.loadSettled = false → ReachP (partLoadSuccess resolved anchorFound s)
  | loadFail (s : PState) :
      ReachP s → s.loadSettled = false → ReachP (partLoadError s)
  | pick (s : PState) (hits : List Mesh) :
      ReachP s → ReachP (onPointerDown hits s)
  | focusUpd (s : PState) (p0 tg0 : Vec3) (t : ℚ) :
      ReachP s → ReachP (focusUpdate p0 tg0 t s)
  | focusDone (s : PState) :
      ReachP s → ReachP (focusComplete s)
  | close (s : PState) :
      ReachP s → s.overlayVisible = true → ReachP (returnToOffice s)
  | returnUpd (s : PState) (p0 tg0 : Vec3) (t : ℚ) :
      ReachP s → ReachP (returnUpdate p0 tg0 t s)
  | returnDone (s : PState) :
      ReachP s → ReachP (returnComplete s)
  | frame (s : PState) :
      ReachP s → ReachP (partAnimate s)

/-- The inductive invariant of the part_000 state machine: every reachable
state is in one of the four shapes orbiting / focus-transition / focused /
return-transition. -/
def StrongInvP (s : PState) : Prop :=
  (s.controlsEnabled = true ∧ s.overlayVisible = false ∧
     s.focusInflight = 0 ∧ s.returnInflight = 0) ∨
  (s.controlsEnabled = false ∧ s.overlayVisible = false ∧
     s.focusInflight = 1 ∧ s.returnInflight = 0) ∨
  (s.controlsEnabled = false ∧ s.overlayVisible = true ∧
     s.focusInflight = 0 ∧ s.returnInflight = 0) ∨
  (s.controlsEnabled = false ∧ s.overlayVisible = false ∧
     s.focusInflight = 0 ∧ s.returnInflight = 1)

end PartZero

namespace MainJs

/-- The safety invariant of main.js around the unresolved monitor reference:
while monitorMesh is null the overlay is hidden and no focus tween is in
flight, and before the loader settles the reference is still null. -/
def InvM (s : MState) : Prop :=
  (s.monitorMesh = none → s.overlayVisible = false ∧ s.focusInflight = 0) ∧
  (s.loadSettled = false → s.monitorMesh = none)

end MainJs

/-- The clickable screen mesh as resolved from the loaded model by either
entry point (object identity 1, uuid 1, the Blender name of the screen). -/
def screenMesh : Mesh := ⟨1, 1, "Screen_Plane_clickable"⟩

/-- main.js run for claim C1: the loader resolves the screen, then two picks
of the screen arrive in immediate succession (the second while the first
tween is in flight), then both started tweens run to completion. -/
def c1Run : MainJs.MState :=
  MainJs.mainFocusComplete (MainJs.mainFocusComplete
    (MainJs.onPointerDown [screenMesh]
      (MainJs.onPointerDown [screenMesh]
        (MainJs.mainLoadSuccess (some screenMesh) MainJs.initM))))

/-- part_000 state for the C1 witness: startup state after the loader
resolved the screen. -/
def c1WitState : PartZero.PState :=
  PartZero.partLoadSuccess (some screenMesh) true PartZero.initP

/-- main.js state for claim C2: the loader resolved the screen and one pick
already started the fly-in, so a transition is in flight and the controls are
disabled. -/
def c2Mid : MainJs.MState :=
  MainJs.onPointerDown [screenMesh]
    (MainJs.mainLoadSuccess (some screenMesh) MainJs.initM)

/-- part_000 state for the C2 witness with the controls enabled. -/
def c2WitEnabled : PartZero.PState :=
  PartZero.partLoadSuccess (some screenMesh) true PartZero.initP

/-- part_000 state for the C2 witness with the controls disabled
(mid-transition). -/
def c2WitDisabled : PartZero.PState := PartZero.moveToMonitor c2WitEnabled

/-- main.js run for claim C3: a second pick lands while the first fly-in is
still in flight; afterwards the first tween completes and opens the overlay
while the second tween is still running. -/
def c3Run : MainJs.MState :=
  MainJs.mainFocusComplete
    (MainJs.onPointerDown [screenMesh]
      (MainJs.onPointerDown [screenMesh]
        (MainJs.mainLoadSuccess (some screenMesh) MainJs.initM)))

/-- part_000 state for the C4 witness with one focus tween pair in flight. -/
def c4FocusState : PartZero.PState :=
  PartZero.moveToMonitor (PartZero.partLoadSuccess (some screenMesh) true PartZero.initP)

/-- part_000 state for the C4 witness with one return tween pair in flight. -/
def c4ReturnState : PartZero.PState :=
  PartZero.returnToOffice (PartZero.focusComplete c4FocusState)

/-- main.js state for the C4 witness with one focus tween in flight. -/
def c4MainState : MainJs.MState :=
  MainJs.onPointerDown [screenMesh]
    (MainJs.mainLoadSuccess (some screenMesh) MainJs.initM)

/-- main.js state for claim C5: one focus tween in flight, camera still at
the wide pose. -/
def c5Mid : MainJs.MState :=
  MainJs.onPointerDown [screenMesh]
    (MainJs.mainLoadSuccess (some screenMesh) MainJs.initM)

/-- part_000 state for the C5 witness with one focus tween pair in flight. -/
def c5WitState : PartZero.PState :=
  PartZero.moveToMonitor (PartZero.partLoadSuccess (some screenMesh) true PartZero.initP)

/-- A mesh distinct from the resolved screen whose name contains "monitor"
(for claim C6). -/
def c6Other : Mesh := ⟨2, 2, "side_monitor_bezel"⟩

/-- A mesh named like the screen while no reference is resolved (claim C6). -/
def c6Lone : Mesh := ⟨3, 3, "monitor_screen"⟩

/-- A mesh whose name contains "screen" only lowercase (claim C6). -/
def c6Lower : Mesh := ⟨4, 4, "flat screen panel"⟩

/-- main.js state for the C4 witness with one return tween in flight. -/
def c4MainReturnState : MainJs.MState :=
  MainJs.closeBtnClick (MainJs.mainFocusComplete c4MainState)

/-- main.js state for the C8 witness: the fly-in completed, the overlay is
open, no tween is in flight. -/
def c8Focused : MainJs.MState :=
  MainJs.mainFocusComplete
    (MainJs.onPointerDown [screenMesh]
      (MainJs.mainLoadSuccess (some screenMesh) MainJs.initM))

/-- part_000 state for the C8 counterexample: the fly-in completed, the
overlay is open, no tween pair is in flight (the FOCUSED view state). -/
def c8PartFocused : PartZero.PState :=
  PartZero.focusComplete
    (PartZero.onPointerDown [screenMesh]
      (PartZero.partLoadSuccess (some screenMesh) true PartZero.initP))

/-- The quadratic ease lands exactly on 1 at the end of the tween. -/
theorem power2InOut_one : power2InOut 1 = 1 := by
  norm_num [power2InOut]

/-- The cubic ease lands exactly on 1 at the end of the tween. -/
theorem power3InOut_one : power3InOut 1 = 1 := by
  norm_num [power3InOut]

/-- Interpolating with ratio 1 yields the end value. -/
theorem lerp_one (a b : ℚ) : lerp a b 1 = b := by
  unfold lerp
  ring

/-- Componentwise version of lerp_one. -/
theorem lerpV_one (a b : Vec3) : lerpV a b 1 = b := by
  cases b
  simp [lerpV, lerp_one]

/-- Strictly inside the tween the quadratic ease stays below 1. -/
theorem power2InOut_lt_one (u : ℚ) (h0 : 0 ≤ u) (h1 : u < 1) :
    power2InOut u < 1 := by
  unfold power2InOut
  split
  · next h2 =>
      nlinarith [mul_nonneg (sq_nonneg u) (by linarith : (0 : ℚ) ≤ 1/2 - u),
                 mul_nonneg (by linarith : (0 : ℚ) ≤ 1/2 - u)
                   (by linarith : (0 : ℚ) ≤ 1/2 + u)]
  · next h2 =>
      have hp : (0 : ℚ) < 2 - 2 * u := by linarith
      nlinarith [pow_pos hp 3]

/-- If an interpolated value with ratio below 1 already sits at the end value,
start and end coincide. -/
theorem lerp_eq_end (a b u : ℚ) (hu : u < 1) (he : lerp a b u = b) : a = b := by
  have h0 : (1 - u) * (b - a) = 0 := by
    unfold lerp at he
    linear_combination -he
  rcases mul_eq_zero.mp h0 with h | h
  · linarith
  · linarith

/-- A vector track strictly inside the tween has not yet reached a distinct
end value. -/
theorem lerpV_ne_end (a b : Vec3) (u : ℚ) (hu : u < 1) (hab : a ≠ b) :
    lerpV a b u ≠ b := by
  intro he
  apply hab
  obtain ⟨a1, a2, a3⟩ := a
  obtain ⟨b1, b2, b3⟩ := b
  simp only [lerpV, Vec3.mk.injEq] at he
  obtain ⟨e1, e2, e3⟩ := he
  simp only [Vec3.mk.injEq]
  exact ⟨lerp_eq_end a1 b1 u hu e1, lerp_eq_end a2 b2 u hu e2,
         lerp_eq_end a3 b3 u hu e3⟩

namespace PartZero

/-- The pointer handler ignores events while the controls are disabled. -/
theorem pd_disabled (s : PState) (hits : List Mesh)
    (h : s.controlsEnabled = false) : onPointerDown hits s = s := by
  simp [onPointerDown, h]

/-- The pointer handler ignores a raycast that hit nothing. -/
theorem pd_nil (s : PState) : onPointerDown [] s = s := by
  unfold onPointerDown
  split <;> rfl

/-- The pointer handler ignores a nearest hit the classification rejects. -/
theorem pd_cons_no (s : PState) (o : Mesh) (r : List Mesh)
    (h : partClassify s.monitorMesh o = false) : onPointerDown (o :: r) s = s := by
  unfold onPointerDown
  split
  · rfl
  · simp [h]

/-- While orbiting, a nearest hit the classification accepts runs
moveToMonitor. -/
theorem pd_cons_yes (s : PState) (o : Mesh) (r : List Mesh)
    (h1 : s.controlsEnabled = true) (h2 : partClassify s.monitorMesh o = true) :
    onPointerDown (o :: r) s = moveToMonitor s := by
  simp [onPointerDown, h1, h2]

/-- A completion event with no focus tween pair in flight changes nothing. -/
theorem focusComplete_zero (s : PState) (h : s.focusInflight = 0) :
    focusComplete s = s := by
  simp [focusComplete, h]

/-- A completion event with no return tween pair in flight changes nothing. -/
theorem returnComplete_zero (s : PState) (h : s.returnInflight = 0) :
    returnComplete s = s := by
  simp [returnComplete, h]

/-- Characterization of a completion event with a focus tween pair in
flight. -/
theorem focusComplete_pos (s : PState) (h : ¬ s.focusInflight = 0) :
    focusComplete s = openOverlay
      { s with camPos := focusPosTrack s.camPos 1.5,
               controlsTarget := focusTargetTrack s.controlsTarget 1.5,
               lookTarget := focusTargetTrack s.controlsTarget 1.5,
               focusInflight := s.focusInflight - 1 } := by
  simp [focusComplete, h]

/-- Characterization of a completion event with a return tween pair in
flight. -/
theorem returnComplete_pos (s : PState) (h : ¬ s.returnInflight = 0) :
    returnComplete s =
      { s with camPos := returnPosTrack s.camPos 1.5,
               controlsTarget := returnTargetTrack s.controlsTarget 1.5,
               lookTarget := returnTargetTrack s.controlsTarget 1.5,
               returnInflight := s.returnInflight - 1,
               controlsEnabled := true } := by
  simp [returnComplete, h]

/-- The focus position track ends exactly at the SIT position. -/
theorem focusPosTrack_end (p0 : Vec3) : focusPosTrack p0 1.5 = SIT_POS := by
  unfold focusPosTrack
  have h : (1.5 : ℚ) / 1.5 = 1 := by norm_num
  rw [h, power2InOut_one, lerpV_one]

/-- The focus target track ends exactly at the SIT target. -/
theorem focusTargetTrack_end (tg0 : Vec3) : focusTargetTrack tg0 1.5 = SIT_TARGET := by
  unfold focusTargetTrack
  have h : (1.5 : ℚ) / 1.5 = 1 := by norm_num
  rw [h, power2InOut_one, lerpV_one]

/-- The return position track ends exactly at the WIDE position. -/
theorem returnPosTrack_end (p0 : Vec3) : returnPosTrack p0 1.5 = WIDE_SHOT_POS := by
  unfold returnPosTrack
  have h : (1.5 : ℚ) / 1.5 = 1 := by norm_num
  rw [h, power2InOut_one, lerpV_one]

/-- The return target track ends exactly at the WIDE target. -/
theorem returnTargetTrack_end (tg0 : Vec3) : returnTargetTrack tg0 1.5 = WIDE_SHOT_TARGET := by
  unfold returnTargetTrack
  have h : (1.5 : ℚ) / 1.5 = 1 := by norm_num
  rw [h, power2InOut_one, lerpV_one]

/-- Every reachable state of part_000 is in one of the four invariant
shapes. -/
theorem strongInvP_of_reach (s : PState) (h : ReachP s) : StrongInvP s := by
  induction h with
  | init =>
      exact Or.inl ⟨rfl, rfl, rfl, rfl⟩
  | load s resolved anchorFound _ _ ih =>
      rcases ih with ⟨h1, h2, h3, h4⟩ | ⟨h1, h2, h3, h4⟩ | ⟨h1, h2, h3, h4⟩ | ⟨h1, h2, h3, h4⟩
      · exact Or.inl ⟨h1, h2, h3, h4⟩
      · exact Or.inr (Or.inl ⟨h1, h2, h3, h4⟩)
      · exact Or.inr (Or.inr (Or.inl ⟨h1, h2, h3, h4⟩))
      · exact Or.inr (Or.inr (Or.inr ⟨h1, h2, h3, h4⟩))
  | loadFail s _ _ ih =>
      rcases ih with ⟨h1, h2, h3, h4⟩ | ⟨h1, h2, h3, h4⟩ | ⟨h1, h2, h3, h4⟩ | ⟨h1, h2, h3, h4⟩
      · exact Or.inl ⟨h1, h2, h3, h4⟩
      · exact Or.inr (Or.inl ⟨h1, h2, h3, h4⟩)
      · exact Or.inr (Or.inr (Or.inl ⟨h1, h2, h3, h4⟩))
      · exact Or.inr (Or.inr (Or.inr ⟨h1, h2, h3, h4⟩))
  | pick s hits _ ih =>
      rcases ih with ⟨h1, h2, h3, h4⟩ | ⟨h1, h2, h3, h4⟩ | ⟨h1, h2, h3, h4⟩ | ⟨h1, h2, h3, h4⟩
      · cases hits with
        | nil =>
            rw [pd_nil]
            exact Or.inl ⟨h1, h2, h3, h4⟩
        | cons o r =>
            by_cases hcl : partClassify s.monitorMesh o = true
            · rw [pd_cons_yes s o r h1 hcl]
              exact Or.inr (Or.inl ⟨rfl, h2, by simp [moveToMonitor, h3], by simp [moveToMonitor, h4]⟩)
            · rw [pd_cons_no s o r (by simpa using hcl)]
              exact Or.inl ⟨h1, h2, h3, h4⟩
      · rw [pd_disabled s hits h1]
        exact Or.inr (Or.inl ⟨h1, h2, h3, h4⟩)
      · rw [pd_disabled s hits h1]
        exact Or.inr (Or.inr (Or.inl ⟨h1, h2, h3, h4⟩))
      · rw [pd_disabled s hits h1]
        exact Or.inr (Or.inr (Or.inr ⟨h1, h2, h3, h4⟩))
  | focusUpd s p0 tg0 t _ ih =>
      unfold focusUpdate
      split
      · exact ih
      · rcases ih with ⟨h1, h2, h3, h4⟩ | ⟨h1, h2, h3, h4⟩ | ⟨h1, h2, h3, h4⟩ | ⟨h1, h2, h3, h4⟩
        · exact Or.inl ⟨h1, h2, h3, h4⟩
        · exact Or.inr (Or.inl ⟨h1, h2, h3, h4⟩)
        · exact Or.inr (Or.inr (Or.inl ⟨h1, h2, h3, h4⟩))
        · exact Or.inr (Or.inr (Or.inr ⟨h1, h2, h3, h4⟩))
  | focusDone s _ ih =>
      rcases ih with ⟨h1, h2, h3, h4⟩ | ⟨h1, h2, h3, h4⟩ | ⟨h1, h2, h3, h4⟩ | ⟨h1, h2, h3, h4⟩
      · rw [focusComplete_zero s h3]
        exact Or.inl ⟨h1, h2, h3, h4⟩
      · refine Or.inr (Or.inr (Or.inl ?_))
        simp [focusComplete, h3, openOverlay, h1, h4]
      · rw [focusComplete_zero s h3]
        exact Or.inr (Or.inr (Or.inl ⟨h1, h2, h3, h4⟩))
      · rw [focusComplete_zero s h3]
        exact Or.inr (Or.inr (Or.inr ⟨h1, h2, h3, h4⟩))
  | close s _ hov ih =>
      rcases ih with ⟨h1, h2, h3, h4⟩ | ⟨h1, h2, h3, h4⟩ | ⟨h1, h2, h3, h4⟩ | ⟨h1, h2, h3, h4⟩
      · rw [h2] at hov; cases hov
      · rw [h2] at hov; cases hov
      · refine Or.inr (Or.inr (Or.inr ?_))
        simp [returnToOffice, hideOverlay, h1, h3, h4]
      · rw [h2] at hov; cases hov
  | returnUpd s p0 tg0 t _ ih =>
      unfold returnUpdate
      split
      · exact ih
      · rcases ih with ⟨h1, h2, h3, h4⟩ | ⟨h1, h2, h3, h4⟩ | ⟨h1, h2, h3, h4⟩ | ⟨h1, h2, h3, h4⟩
        · exact Or.inl ⟨h1, h2, h3, h4⟩
        · exact Or.inr (Or.inl ⟨h1, h2, h3, h4⟩)
        · exact Or.inr (Or.inr (Or.inl ⟨h1, h2, h3, h4⟩))
        · exact Or.inr (Or.inr (Or.inr ⟨h1, h2, h3, h4⟩))
  | returnDone s _ ih =>
      rcases ih with ⟨h1, h2, h3, h4⟩ | ⟨h1, h2, h3, h4⟩ | ⟨h1, h2, h3, h4⟩ | ⟨h1, h2, h3, h4⟩
      · rw [returnComplete_zero s h4]
        exact Or.inl ⟨h1, h2, h3, h4⟩
      · rw [returnComplete_zero s h4]
        exact Or.inr (Or.inl ⟨h1, h2, h3, h4⟩)
      · rw [returnComplete_zero s h4]
        exact Or.inr (Or.inr (Or.inl ⟨h1, h2, h3, h4⟩))
      · refine Or.inl ?_
        simp [returnComplete, h4, h2, h3]
  | frame s _ ih =>
      rcases ih with ⟨h1, h2, h3, h4⟩ | ⟨h1, h2, h3, h4⟩ | ⟨h1, h2, h3, h4⟩ | ⟨h1, h2, h3, h4⟩
      · exact Or.inl ⟨h1, h2, h3, h4⟩
      · exact Or.inr (Or.inl ⟨h1, h2, h3, h4⟩)
      · exact Or.inr (Or.inr (Or.inl ⟨h1, h2, h3, h4⟩))
      · exact Or.inr (Or.inr (Or.inr ⟨h1, h2, h3, h4⟩))

/-- The four invariant shapes give the two specification equivalences. -/
theorem invP_equiv (s : PState) (h : StrongInvP s) :
    (s.controlsEnabled = true ↔ viewOfP s = ViewState.orbiting) ∧
    (s.overlayVisible = true ↔ viewOfP s = ViewState.focused) := by
  rcases h with ⟨h1, h2, h3, h4⟩ | ⟨h1, h2, h3, h4⟩ | ⟨h1, h2, h3, h4⟩ | ⟨h1, h2, h3, h4⟩ <;>
    simp [viewOfP, h1, h2, h3, h4]

end PartZero

namespace MainJs

/-- A classification against an unresolved reference rejects every hit. -/
theorem mainClassify_none (o : Mesh) : mainClassify none o = false := rfl

/-- The main.js pointer handler ignores a nearest hit the classification
rejects. -/
theorem mpd_cons_no (s : MState) (o : Mesh) (r : List Mesh)
    (h : mainClassify s.monitorMesh o = false) : onPointerDown (o :: r) s = s := by
  simp [onPointerDown, h]

/-- A nearest hit the classification accepts runs focusOnMonitor, with no
check of the view state. -/
theorem mpd_cons_yes (s : MState) (o : Mesh) (r : List Mesh)
    (h : mainClassify s.monitorMesh o = true) :
    onPointerDown (o :: r) s = focusOnMonitor s := by
  simp [onPointerDown, h]

/-- A completion event with no focus tween in flight changes nothing. -/
theorem mainFocusComplete_zero (s : MState) (h : s.focusInflight = 0) :
    mainFocusComplete s = s := by
  simp [mainFocusComplete, h]

/-- Characterization of a completion event with a focus tween in flight. -/
theorem mainFocusComplete_pos (s : MState) (h : ¬ s.focusInflight = 0) :
    mainFocusComplete s = openOverlay
      { s with camPos := mainFocusSample s.camPos 1.2,
               lookTarget := SIT_TARGET,
               focusInflight := s.focusInflight - 1 } := by
  simp [mainFocusComplete, h]

/-- Characterization of a completion event with a return tween in flight. -/
theorem mainReturnComplete_pos (s : MState) (h : ¬ s.returnInflight = 0) :
    mainReturnComplete s =
      { s with camPos := mainReturnSample s.camPos 1,
               lookTarget := WIDE_SHOT_TARGET,
               returnInflight := s.returnInflight - 1,
               controlsEnabled := true } := by
  simp [mainReturnComplete, h]

/-- The main.js focus position tween ends exactly at the SIT position. -/
theorem mainFocusSample_end (p0 : Vec3) : mainFocusSample p0 1.2 = SIT_POS := by
  unfold mainFocusSample
  have h : (1.2 : ℚ) / 1.2 = 1 := by norm_num
  rw [h, power3InOut_one, lerpV_one]

/-- The main.js return position tween ends exactly at the WIDE position. -/
theorem mainReturnSample_end (p0 : Vec3) : mainReturnSample p0 1 = WIDE_SHOT_POS := by
  unfold mainReturnSample
  have h : (1 : ℚ) / 1 = 1 := by norm_num
  rw [h, power3InOut_one, lerpV_one]

/-- Every reachable state of main.js satisfies the unresolved-reference
invariant. -/
theorem invM_of_reach (s : MState) (h : ReachM s) : InvM s := by
  induction h with
  | init =>
      exact ⟨fun _ => ⟨rfl, rfl⟩, fun _ => rfl⟩
  | load s resolved _ hset ih =>
      cases resolved with
      | none =>
          refine ⟨fun _ => ?_, fun hh => ?_⟩
          · simpa [mainLoadSuccess] using ih.1 (ih.2 hset)
          · simp [mainLoadSuccess] at hh
      | some m =>
          refine ⟨fun hh => ?_, fun hh => ?_⟩
          · simp [mainLoadSuccess] at hh
          · simp [mainLoadSuccess] at hh
  | loadFail s _ _ ih =>
      refine ⟨fun hh => ?_, fun hh => ?_⟩
      · simp [mainLoadError] at hh
      · simp [mainLoadError] at hh
  | pick s hits _ ih =>
      cases hits with
      | nil => exact ih
      | cons o r =>
          by_cases hcl : mainClassify s.monitorMesh o = true
          · rw [mpd_cons_yes s o r hcl]
            cases hm : s.monitorMesh with
            | none => rw [hm] at hcl; simp [mainClassify] at hcl
            | some m =>
                have hfo : focusOnMonitor s =
                    { s with controlsEnabled := false,
                             focusInflight := s.focusInflight + 1,
                             transitionsStarted := s.transitionsStarted + 1 } := by
                  simp [focusOnMonitor, hm]
                rw [hfo]
                refine ⟨fun hh => ?_, fun hh => ?_⟩
                · exact absurd hh (by simp [hm])
                · exact absurd (ih.2 hh) (by simp [hm])
          · rw [mpd_cons_no s o r (by simpa using hcl)]
            exact ih
  | focusUpd s p0 t _ ih =>
      unfold mainFocusUpdate
      split
      · exact ih
      · exact ih
  | focusDone s _ ih =>
      unfold mainFocusComplete
      split
      · exact ih
      · next hn =>
          refine ⟨fun hh => ?_, fun hh => ?_⟩
          · exact absurd (ih.1 hh).2 hn
          · exact ih.2 hh
  | close s _ hov ih =>
      refine ⟨fun hh => ⟨rfl, (ih.1 hh).2⟩, fun hh => ih.2 hh⟩
  | returnUpd s p0 t _ ih =>
      unfold mainReturnUpdate
      split
      · exact ih
      · exact ih
  | returnDone s _ ih =>
      unfold mainReturnComplete
      split
      · exact ih
      · exact ⟨fun hh => ih.1 hh, fun hh => ih.2 hh⟩
  | key s k _ ih =>
      unfold escapeKeyDown
      split
      · exact ⟨fun hh => ⟨rfl, (ih.1 hh).2⟩, fun hh => ih.2 hh⟩
      · exact ih
  | frame s now _ ih =>
      exact ih
  | dragStart s _ _ ih =>
      exact ih

end MainJs

/-- C1, counterexample.  In src/src/main.js the claim fails: neither
onPointerDown nor focusOnMonitor checks the view state, so two picks of the
resolved screen in immediate succession (the second while the first fly-in is
in flight) start two camera transitions, and when both tweens complete the
overlay-show routine runs twice.  The run is reachable from startup by wired
handlers only. -/
theorem c1_counterexample :
    MainJs.ReachM c1Run ∧ c1Run.transitionsStarted = 2 ∧ c1Run.overlayOpens = 2 := by
  refine ⟨?_, by decide, by decide⟩
  exact MainJs.ReachM.focusDone _ (MainJs.ReachM.focusDone _
    (MainJs.ReachM.pick _ [screenMesh] (MainJs.ReachM.pick _ [screenMesh]
      (MainJs.ReachM.load _ (some screenMesh) MainJs.ReachM.init rfl))))

/-- C1, amended: in src/unnamed/part_000 the double-trigger guard sits in the
pick handler rather than in the focus routine itself; because moveToMonitor
disables the controls synchronously, two pick-driven focus requests in
immediate succession produce exactly one transition, exactly one
overlay-show on completion, and the in-flight transition runs to completion
uninterrupted (a further completion event changes nothing).  In main.js no
such guard exists and repeated requests start repeated transitions. -/
theorem c1_amended_theorem (s : PartZero.PState) (o : Mesh) (r : List Mesh)
    (h1 : s.controlsEnabled = true)
    (h2 : PartZero.partClassify s.monitorMesh o = true)
    (h3 : s.focusInflight = 0) :
    (PartZero.onPointerDown (o :: r) (PartZero.onPointerDown (o :: r) s)).transitionsStarted
        = s.transitionsStarted + 1 ∧
    (PartZero.focusComplete
        (PartZero.onPointerDown (o :: r) (PartZero.onPointerDown (o :: r) s))).overlayOpens
        = s.overlayOpens + 1 ∧
    PartZero.focusComplete (PartZero.focusComplete
        (PartZero.onPointerDown (o :: r) (PartZero.onPointerDown (o :: r) s)))
      = PartZero.focusComplete
          (PartZero.onPointerDown (o :: r) (PartZero.onPointerDown (o :: r) s)) := by
  have e1 : PartZero.onPointerDown (o :: r) s = PartZero.moveToMonitor s :=
    PartZero.pd_cons_yes s o r h1 h2
  have e2 : PartZero.onPointerDown (o :: r) (PartZero.moveToMonitor s)
      = PartZero.moveToMonitor s :=
    PartZero.pd_disabled _ _ rfl
  rw [e1, e2]
  have hpos : ¬ (PartZero.moveToMonitor s).focusInflight = 0 := by
    simp [PartZero.moveToMonitor]
  refine ⟨rfl, ?_, ?_⟩
  · rw [PartZero.focusComplete_pos _ hpos]
    simp [PartZero.openOverlay, PartZero.moveToMonitor]
  · rw [PartZero.focusComplete_pos _ hpos]
    exact PartZero.focusComplete_zero _ (by
      simp [PartZero.openOverlay, PartZero.moveToMonitor, h3])

/-- C1, witness for the amended theorem at the startup state with the screen
resolved and the nearest hit being the screen itself. -/
theorem c1_witness :
    (PartZero.onPointerDown [screenMesh]
        (PartZero.onPointerDown [screenMesh] c1WitState)).transitionsStarted
      = c1WitState.transitionsStarted + 1 ∧
    (PartZero.focusComplete (PartZero.onPointerDown [screenMesh]
        (PartZero.onPointerDown [screenMesh] c1WitState))).overlayOpens
      = c1WitState.overlayOpens + 1 ∧
    PartZero.focusComplete (PartZero.focusComplete (PartZero.onPointerDown [screenMesh]
        (PartZero.onPointerDown [screenMesh] c1WitState)))
      = PartZero.focusComplete (PartZero.onPointerDown [screenMesh]
          (PartZero.onPointerDown [screenMesh] c1WitState)) :=
  c1_amended_theorem c1WitState screenMesh [] rfl (by decide) rfl

/-- C2, counterexample.  In src/src/main.js the pick handler dispatches with
no view-state check: from a reachable state in which a transition is in
flight (controls disabled, view TRANSITIONING), a pick whose nearest hit is
the interactive surface starts another transition and changes the state. -/
theorem c2_counterexample :
    MainJs.ReachM c2Mid ∧
    c2Mid.controlsEnabled = false ∧
    MainJs.viewOfM c2Mid = ViewState.transitioning ∧
    (MainJs.onPointerDown [screenMesh] c2Mid).transitionsStarted
      = c2Mid.transitionsStarted + 1 ∧
    (MainJs.onPointerDown [screenMesh] c2Mid).focusInflight = 2 ∧
    c2Mid.focusInflight = 1 := by
  refine ⟨?_, by decide, by decide, by decide, by decide, by decide⟩
  exact MainJs.ReachM.pick _ [screenMesh]
    (MainJs.ReachM.load _ (some screenMesh) MainJs.ReachM.init rfl)

/-- C2, amended: the property holds of src/unnamed/part_000, whose handler
returns at once while the controls are disabled, ignores an empty hit list
and a rejected nearest hit, and runs moveToMonitor exactly on an accepted
nearest hit while orbiting.  In main.js the handler checks only the hit
classification, not the view state. -/
theorem c2_amended_theorem (s s2 : PartZero.PState) (o : Mesh) (r : List Mesh)
    (h1 : s.controlsEnabled = true) (h2 : s2.controlsEnabled = false) :
    PartZero.onPointerDown [] s = s ∧
    PartZero.onPointerDown (o :: r) s2 = s2 ∧
    (PartZero.partClassify s.monitorMesh o = false →
      PartZero.onPointerDown (o :: r) s = s) ∧
    (PartZero.partClassify s.monitorMesh o = true →
      PartZero.onPointerDown (o :: r) s = PartZero.moveToMonitor s ∧
      (PartZero.onPointerDown (o :: r) s).transitionsStarted
        = s.transitionsStarted + 1) :=
  ⟨PartZero.pd_nil s,
   PartZero.pd_disabled s2 (o :: r) h2,
   fun hc => PartZero.pd_cons_no s o r hc,
   fun hc => ⟨PartZero.pd_cons_yes s o r h1 hc,
     by rw [PartZero.pd_cons_yes s o r h1 hc]; rfl⟩⟩

/-- C2, witness for the amended theorem: an enabled startup state with the
screen resolved, and a mid-transition state with the controls disabled. -/
theorem c2_witness :
    PartZero.onPointerDown [] c2WitEnabled = c2WitEnabled ∧
    PartZero.onPointerDown [screenMesh] c2WitDisabled = c2WitDisabled ∧
    PartZero.onPointerDown [screenMesh] c2WitEnabled
      = PartZero.moveToMonitor c2WitEnabled := by
  have h := c2_amended_theorem c2WitEnabled c2WitDisabled screenMesh [] rfl rfl
  exact ⟨h.1, h.2.1, (h.2.2.2 (by decide)).1⟩

/-- C3, counterexample.  In src/src/main.js the two equivalences do not hold
of every reachable state: after a second pick lands during the first fly-in,
the completion of the first tween opens the overlay while the second tween is
still in flight, so the overlay is visible in a TRANSITIONING state, not a
FOCUSED one. -/
theorem c3_counterexample :
    MainJs.ReachM c3Run ∧
    c3Run.overlayVisible = true ∧
    MainJs.viewOfM c3Run = ViewState.transitioning ∧
    ¬ ((c3Run.overlayVisible = true) ↔ (MainJs.viewOfM c3Run = ViewState.focused)) := by
  refine ⟨?_, by decide, by decide, by decide⟩
  exact MainJs.ReachM.focusDone _
    (MainJs.ReachM.pick _ [screenMesh] (MainJs.ReachM.pick _ [screenMesh]
      (MainJs.ReachM.load _ (some screenMesh) MainJs.ReachM.init rfl)))

/-- C3, amended: in src/unnamed/part_000 every state reachable from startup
by the wired handlers satisfies both equivalences - the controls are enabled
exactly in the ORBITING view state and the overlay is visible exactly in the
FOCUSED view state - and every operation preserves them.  In main.js the
equivalences fail on reachable states because the pick handler lacks the
view-state guard. -/
theorem c3_amended_theorem (s : PartZero.PState) (h : PartZero.ReachP s) :
    (s.controlsEnabled = true ↔ PartZero.viewOfP s = ViewState.orbiting) ∧
    (s.overlayVisible = true ↔ PartZero.viewOfP s = ViewState.focused) :=
  PartZero.invP_equiv s (PartZero.strongInvP_of_reach s h)

/-- C3, witness for the amended theorem at the startup state. -/
theorem c3_witness :
    (PartZero.initP.controlsEnabled = true
        ↔ PartZero.viewOfP PartZero.initP = ViewState.orbiting) ∧
    (PartZero.initP.overlayVisible = true
        ↔ PartZero.viewOfP PartZero.initP = ViewState.focused) :=
  c3_amended_theorem PartZero.initP PartZero.ReachP.init

/-- C4: a focus transition that runs to completion leaves the camera exactly
at the SIT pose (position and look target), and the overlay becomes visible
only on completion (starting the transition and every update tick leave its
visibility unchanged); a return transition that runs to completion leaves the
camera exactly at the WIDE pose and only then re-enables the controls
(starting it and every update tick leave the enabled flag unchanged).  This
holds in part_000 for both tracks and in main.js for the position track and
its (constant) look target, in both directions. -/
theorem c4_theorem (s t : PartZero.PState) (u v : MainJs.MState)
    (p0 tg0 : Vec3) (tt : ℚ)
    (hs : ¬ s.focusInflight = 0) (ht : ¬ t.returnInflight = 0)
    (hu : ¬ u.focusInflight = 0) (hv : ¬ v.returnInflight = 0) :
    (PartZero.focusComplete s).camPos = PartZero.SIT_POS ∧
    (PartZero.focusComplete s).controlsTarget = PartZero.SIT_TARGET ∧
    (PartZero.focusComplete s).lookTarget = PartZero.SIT_TARGET ∧
    (PartZero.focusComplete s).overlayVisible = true ∧
    (PartZero.moveToMonitor s).overlayVisible = s.overlayVisible ∧
    (PartZero.focusUpdate p0 tg0 tt s).overlayVisible = s.overlayVisible ∧
    (PartZero.returnComplete t).camPos = PartZero.WIDE_SHOT_POS ∧
    (PartZero.returnComplete t).controlsTarget = PartZero.WIDE_SHOT_TARGET ∧
    (PartZero.returnComplete t).controlsEnabled = true ∧
    (PartZero.returnToOffice t).controlsEnabled = t.controlsEnabled ∧
    (PartZero.returnUpdate p0 tg0 tt t).controlsEnabled = t.controlsEnabled ∧
    (MainJs.mainFocusComplete u).camPos = MainJs.SIT_POS ∧
    (MainJs.mainFocusComplete u).lookTarget = MainJs.SIT_TARGET ∧
    (MainJs.mainFocusComplete u).overlayVisible = true ∧
    (MainJs.focusOnMonitor u).overlayVisible = u.overlayVisible ∧
    (MainJs.mainFocusUpdate p0 tt u).overlayVisible = u.overlayVisible ∧
    (MainJs.mainReturnComplete v).camPos = MainJs.WIDE_SHOT_POS ∧
    (MainJs.mainReturnComplete v).lookTarget = MainJs.WIDE_SHOT_TARGET ∧
    (MainJs.mainReturnComplete v).controlsEnabled = true ∧
    (MainJs.closeBtnClick u).controlsEnabled = u.controlsEnabled ∧
    (MainJs.mainReturnUpdate p0 tt u).controlsEnabled = u.controlsEnabled := by
  rw [PartZero.focusComplete_pos s hs, PartZero.returnComplete_pos t ht,
      MainJs.mainFocusComplete_pos u hu, MainJs.mainReturnComplete_pos v hv]
  refine ⟨PartZero.focusPosTrack_end s.camPos,
          PartZero.focusTargetTrack_end s.controlsTarget,
          PartZero.focusTargetTrack_end s.controlsTarget,
          rfl, rfl, ?_,
          PartZero.returnPosTrack_end t.camPos,
          PartZero.returnTargetTrack_end t.controlsTarget,
          rfl, rfl, ?_,
          MainJs.mainFocusSample_end u.camPos,
          rfl, rfl, ?_, ?_,
          MainJs.mainReturnSample_end v.camPos,
          rfl, rfl, rfl, ?_⟩
  · unfold PartZero.focusUpdate
    split <;> rfl
  · unfold PartZero.returnUpdate
    split <;> rfl
  · unfold MainJs.focusOnMonitor
    split <;> rfl
  · unfold MainJs.mainFocusUpdate
    split <;> rfl
  · unfold MainJs.mainReturnUpdate
    split <;> rfl

/-- C4, witness at concrete in-flight states of both files. -/
theorem c4_witness :
    (PartZero.focusComplete c4FocusState).camPos = PartZero.SIT_POS ∧
    (PartZero.focusComplete c4FocusState).controlsTarget = PartZero.SIT_TARGET ∧
    (PartZero.focusComplete c4FocusState).lookTarget = PartZero.SIT_TARGET ∧
    (PartZero.focusComplete c4FocusState).overlayVisible = true ∧
    (PartZero.moveToMonitor c4FocusState).overlayVisible = c4FocusState.overlayVisible ∧
    (PartZero.focusUpdate ⟨0, 0, 0⟩ ⟨0, 0, 0⟩ 0 c4FocusState).overlayVisible
      = c4FocusState.overlayVisible ∧
    (PartZero.returnComplete c4ReturnState).camPos = PartZero.WIDE_SHOT_POS ∧
    (PartZero.returnComplete c4ReturnState).controlsTarget = PartZero.WIDE_SHOT_TARGET ∧
    (PartZero.returnComplete c4ReturnState).controlsEnabled = true ∧
    (PartZero.returnToOffice c4ReturnState).controlsEnabled
      = c4ReturnState.controlsEnabled ∧
    (PartZero.returnUpdate ⟨0, 0, 0⟩ ⟨0, 0, 0⟩ 0 c4ReturnState).controlsEnabled
      = c4ReturnState.controlsEnabled ∧
    (MainJs.mainFocusComplete c4MainState).camPos = MainJs.SIT_POS ∧
    (MainJs.mainFocusComplete c4MainState).lookTarget = MainJs.SIT_TARGET ∧
    (MainJs.mainFocusComplete c4MainState).overlayVisible = true ∧
    (MainJs.focusOnMonitor c4MainState).overlayVisible
      = c4MainState.overlayVisible ∧
    (MainJs.mainFocusUpdate ⟨0, 0, 0⟩ 0 c4MainState).overlayVisible
      = c4MainState.overlayVisible ∧
    (MainJs.mainReturnComplete c4MainReturnState).camPos = MainJs.WIDE_SHOT_POS ∧
    (MainJs.mainReturnComplete c4MainReturnState).lookTarget
      = MainJs.WIDE_SHOT_TARGET ∧
    (MainJs.mainReturnComplete c4MainReturnState).controlsEnabled = true ∧
    (MainJs.closeBtnClick c4MainState).controlsEnabled
      = c4MainState.controlsEnabled ∧
    (MainJs.mainReturnUpdate ⟨0, 0, 0⟩ 0 c4MainState).controlsEnabled
      = c4MainState.controlsEnabled :=
  c4_theorem c4FocusState c4ReturnState c4MainState c4MainReturnState
    ⟨0, 0, 0⟩ ⟨0, 0, 0⟩ 0 (by decide) (by decide) (by decide) (by decide)

/-- C5, counterexample.  In src/src/main.js the look target is NOT an
interpolated track: mid-transition (elapsed 0.6 of 1.2) the update tick calls
lookAt with the final SIT target while the eased track from the wide target
would still be strictly away from it, and controls.target is not animated at
all. -/
theorem c5_counterexample :
    MainJs.ReachM c5Mid ∧
    ¬ c5Mid.focusInflight = 0 ∧
    (MainJs.mainFocusUpdate MainJs.WIDE_SHOT_POS 0.6 c5Mid).lookTarget
      = MainJs.SIT_TARGET ∧
    (MainJs.mainFocusUpdate MainJs.WIDE_SHOT_POS 0.6 c5Mid).controlsTarget
      = c5Mid.controlsTarget ∧
    lerpV MainJs.WIDE_SHOT_TARGET MainJs.SIT_TARGET (power3InOut (0.6 / 1.2))
      ≠ MainJs.SIT_TARGET := by
  refine ⟨?_, by decide, rfl, rfl, ?_⟩
  · exact MainJs.ReachM.pick _ [screenMesh]
      (MainJs.ReachM.load _ (some screenMesh) MainJs.ReachM.init rfl)
  · intro h
    have h2 := congrArg Vec3.x h
    norm_num [lerpV, lerp, power3InOut, MainJs.WIDE_SHOT_TARGET,
              MainJs.SIT_TARGET] at h2

/-- C5, amended: in src/unnamed/part_000 the camera position and the look
target are interpolated as two independent eased tracks, every update tick
recomputes the look direction from the currently interpolated target, and
strictly inside the transition the look target has not yet reached a distinct
SIT target (never snapped).  In src/src/main.js only the camera position is
tweened and the look target is set to the final SIT target on every update
tick from the start of the transition. -/
theorem c5_amended_theorem (p0 tg0 : Vec3) (t : ℚ) (s : PartZero.PState)
    (h1 : ¬ s.focusInflight = 0) (h2 : 0 < t) (h3 : t < 1.5)
    (h4 : tg0 ≠ PartZero.SIT_TARGET) :
    (PartZero.focusUpdate p0 tg0 t s).camPos
      = lerpV p0 PartZero.SIT_POS (power2InOut (t / 1.5)) ∧
    (PartZero.focusUpdate p0 tg0 t s).controlsTarget
      = lerpV tg0 PartZero.SIT_TARGET (power2InOut (t / 1.5)) ∧
    (PartZero.focusUpdate p0 tg0 t s).lookTarget
      = (PartZero.focusUpdate p0 tg0 t s).controlsTarget ∧
    (PartZero.focusUpdate p0 tg0 t s).lookTarget ≠ PartZero.SIT_TARGET := by
  have e : PartZero.focusUpdate p0 tg0 t s =
      { s with camPos := PartZero.focusPosTrack p0 t,
               controlsTarget := PartZero.focusTargetTrack tg0 t,
               lookTarget := PartZero.focusTargetTrack tg0 t } := by
    simp [PartZero.focusUpdate, h1]
  rw [e]
  refine ⟨rfl, rfl, rfl, ?_⟩
  unfold PartZero.focusTargetTrack
  apply lerpV_ne_end _ _ _ ?_ h4
  apply power2InOut_lt_one
  · exact div_nonneg h2.le (by norm_num)
  · rw [div_lt_one (by norm_num)]
    exact h3

/-- C5, witness for the amended theorem mid-transition (elapsed 0.75 of 1.5)
starting from the wide target. -/
theorem c5_witness :
    (PartZero.focusUpdate PartZero.WIDE_SHOT_POS PartZero.WIDE_SHOT_TARGET 0.75
        c5WitState).camPos
      = lerpV PartZero.WIDE_SHOT_POS PartZero.SIT_POS (power2InOut (0.75 / 1.5)) ∧
    (PartZero.focusUpdate PartZero.WIDE_SHOT_POS PartZero.WIDE_SHOT_TARGET 0.75
        c5WitState).controlsTarget
      = lerpV PartZero.WIDE_SHOT_TARGET PartZero.SIT_TARGET (power2InOut (0.75 / 1.5)) ∧
    (PartZero.focusUpdate PartZero.WIDE_SHOT_POS PartZero.WIDE_SHOT_TARGET 0.75
        c5WitState).lookTarget
      = (PartZero.focusUpdate PartZero.WIDE_SHOT_POS PartZero.WIDE_SHOT_TARGET 0.75
          c5WitState).controlsTarget ∧
    (PartZero.focusUpdate PartZero.WIDE_SHOT_POS PartZero.WIDE_SHOT_TARGET 0.75
        c5WitState).lookTarget ≠ PartZero.SIT_TARGET :=
  c5_amended_theorem PartZero.WIDE_SHOT_POS PartZero.WIDE_SHOT_TARGET 0.75 c5WitState
    (by decide) (by norm_num) (by norm_num)
    (by
      intro h
      have h2 := congrArg Vec3.x h
      norm_num [PartZero.WIDE_SHOT_TARGET, PartZero.SIT_TARGET] at h2)

/-- C6, counterexample.  In src/src/main.js the name-substring test is not a
fallback: with the reference resolved, a different mesh whose lowercased name
contains "monitor" is classified interactive; and with the reference
unresolved the fallback never applies (nothing is interactive, even a mesh
named exactly like the screen).  In part_000 the substring test is
case-sensitive, rejecting a name that contains "screen" only lowercase. -/
theorem c6_counterexample :
    MainJs.mainClassify (some screenMesh) c6Other = true ∧
    ¬ c6Other.ref = screenMesh.ref ∧
    ¬ c6Other.uuid = screenMesh.uuid ∧
    MainJs.mainClassify none c6Lone = false ∧
    strContains (lowerStr c6Lone.name) "monitor" = true ∧
    PartZero.partClassify none c6Lower = false ∧
    strContains (lowerStr c6Lower.name) "screen" = true := by
  refine ⟨by decide, by decide, by decide, by decide, by decide, by decide, by decide⟩

/-- C6, amended: classification is a deterministic function of the resolved
reference and the hit; identity-equality to the resolved reference always
classifies the hit interactive (in both files); in main.js the name test is a
plain disjunct available only while the reference is resolved, and with the
reference unresolved no hit is classified interactive. -/
theorem c6_amended_theorem (m p q : Mesh) (h : p.ref = m.ref) :
    MainJs.mainClassify (some m) p = true ∧
    PartZero.partClassify (some m) p = true ∧
    MainJs.mainClassify none q = false := by
  refine ⟨?_, ?_, rfl⟩
  · simp [MainJs.mainClassify, h]
  · simp [PartZero.partClassify, h]

/-- C6, witness: the resolved screen picked directly, and an unresolved
classification of a screen-named mesh. -/
theorem c6_witness :
    MainJs.mainClassify (some screenMesh) screenMesh = true ∧
    PartZero.partClassify (some screenMesh) screenMesh = true ∧
    MainJs.mainClassify none c6Lone = false :=
  c6_amended_theorem screenMesh screenMesh c6Lone rfl

/-- The animate loop of main.js never touches the idle timer, however many
frames run. -/
theorem animate_foldl_idleTime (ts : List ℚ) (s : MainJs.MState) :
    (ts.foldl (fun st n2 => MainJs.animateStep n2 st) s).idleTime = s.idleTime := by
  induction ts generalizing s with
  | nil => rfl
  | cons a as ih => simpa using ih (MainJs.animateStep a s)

/-- C7: the idle auto-orbit of src/src/main.js is dead code.  The per-frame
loop (animateStep, lines 287-301) never invokes updateControlsIdle, so over
any sequence of frames with no input the idle timer stays at zero and the
auto-orbit never activates; had updateControlsIdle been called with an
accumulated dt of 2 while orbiting, it would have advanced the timer past the
1.5 threshold and placed the camera on the wall-clock circular path looking
at (0, 1, 0), exactly as the claim describes. -/
theorem c7_theorem (s : MainJs.MState) (ts : List ℚ) (sinF cosF : ℚ → ℚ)
    (now : ℚ) (h1 : s.controlsEnabled = true) (h2 : s.idleTime = 0) :
    (ts.foldl (fun st n2 => MainJs.animateStep n2 st) s).idleTime = 0 ∧
    (MainJs.updateControlsIdle sinF cosF 2 now s).idleTime = 2 ∧
    (MainJs.updateControlsIdle sinF cosF 2 now s).camPos
      = ⟨sinF (now * 0.00008) * 6, s.camPos.y, cosF (now * 0.00008) * 6⟩ ∧
    (MainJs.updateControlsIdle sinF cosF 2 now s).lookTarget = ⟨0, 1, 0⟩ := by
  have hup : MainJs.updateControlsIdle sinF cosF 2 now s =
      { s with idleTime := s.idleTime + 2,
               camPos := ⟨sinF (now * 0.00008) * 6, s.camPos.y,
                          cosF (now * 0.00008) * 6⟩,
               lookTarget := ⟨0, 1, 0⟩ } := by
    unfold MainJs.updateControlsIdle
    rw [h1]
    rw [if_neg (by simp)]
    rw [if_pos (by rw [h2]; norm_num)]
  refine ⟨?_, ?_, ?_, ?_⟩
  · rw [animate_foldl_idleTime]
    exact h2
  · rw [hup]
    show s.idleTime + 2 = 2
    rw [h2]
    norm_num
  · rw [hup]
  · rw [hup]

/-- C7, witness: from startup, two frames and a would-be idle tick with
dt 2. -/
theorem c7_witness :
    (([16, 33] : List ℚ).foldl (fun st n2 => MainJs.animateStep n2 st)
        MainJs.initM).idleTime = 0 ∧
    (MainJs.updateControlsIdle id id 2 0 MainJs.initM).idleTime = 2 ∧
    (MainJs.updateControlsIdle id id 2 0 MainJs.initM).camPos
      = ⟨id ((0 : ℚ) * 0.00008) * 6, MainJs.initM.camPos.y,
         id ((0 : ℚ) * 0.00008) * 6⟩ ∧
    (MainJs.updateControlsIdle id id 2 0 MainJs.initM).lookTarget = ⟨0, 1, 0⟩ :=
  c7_theorem MainJs.initM [16, 33] id id 0 rfl rfl

/-- C8, counterexample.  The claim also cites src/unnamed/part_000, which
registers no keydown listener at all: at a reachable FOCUSED state of
part_000 an Escape key event leaves the state unchanged (overlay still
visible, no return transition started), while the overlay-close action hides
the overlay and starts the return transition - so the claimed equivalence
fails there. -/
theorem c8_counterexample :
    PartZero.ReachP c8PartFocused ∧
    PartZero.viewOfP c8PartFocused = ViewState.focused ∧
    PartZero.keyDown "Escape" c8PartFocused = c8PartFocused ∧
    (PartZero.keyDown "Escape" c8PartFocused).overlayVisible = true ∧
    (PartZero.keyDown "Escape" c8PartFocused).returnInflight
      = c8PartFocused.returnInflight ∧
    (PartZero.returnToOffice c8PartFocused).overlayVisible = false ∧
    (PartZero.returnToOffice c8PartFocused).returnInflight
      = c8PartFocused.returnInflight + 1 := by
  refine ⟨?_, by decide, rfl, by decide, rfl, by decide, rfl⟩
  exact PartZero.ReachP.focusDone _
    (PartZero.ReachP.pick _ [screenMesh]
      (PartZero.ReachP.load _ (some screenMesh) true PartZero.ReachP.init rfl))

/-- C8, amended: in src/src/main.js an Escape keydown received while the view
state is FOCUSED has exactly the effect of the overlay-close action - the
keydown listener programmatically clicks the close button, so the resulting
state is literally closeBtnClick of the current state: the overlay becomes
hidden and the transition back to the WIDE pose (whose completion re-enables
the controls) is started.  In src/unnamed/part_000 no keydown listener exists
and a key event leaves the state unchanged. -/
theorem c8_theorem (s : MainJs.MState) (s2 : PartZero.PState) (k : String)
    (h : MainJs.viewOfM s = ViewState.focused) :
    MainJs.escapeKeyDown "Escape" s = MainJs.closeBtnClick s ∧
    (MainJs.escapeKeyDown "Escape" s).overlayVisible = false ∧
    (MainJs.escapeKeyDown "Escape" s).returnInflight = s.returnInflight + 1 ∧
    PartZero.keyDown k s2 = s2 := by
  have hov : s.overlayVisible = true := by
    unfold MainJs.viewOfM at h
    split at h
    · simp at h
    · split at h
      · assumption
      · simp at h
  have he : MainJs.escapeKeyDown "Escape" s = MainJs.closeBtnClick s := by
    unfold MainJs.escapeKeyDown
    rw [hov]
    simp
  rw [he]
  exact ⟨rfl, rfl, rfl, rfl⟩

/-- C8, witness at the reachable focused state of main.js (and the startup
state of part_000). -/
theorem c8_witness :
    MainJs.viewOfM c8Focused = ViewState.focused ∧
    (MainJs.escapeKeyDown "Escape" c8Focused = MainJs.closeBtnClick c8Focused ∧
     (MainJs.escapeKeyDown "Escape" c8Focused).overlayVisible = false ∧
     (MainJs.escapeKeyDown "Escape" c8Focused).returnInflight
       = c8Focused.returnInflight + 1 ∧
     PartZero.keyDown "Escape" PartZero.initP = PartZero.initP) :=
  ⟨rfl, c8_theorem c8Focused PartZero.initP "Escape" rfl⟩

/-- C9: asset load failure is reported to the console and the core keeps
running.  In main.js the error callback logs a warning, builds the procedural
fallback desk (resolving the monitor reference), leaves the camera, controls
and overlay untouched, the next frame still renders, and the controller still
flies to the hard-coded SIT pose and opens the overlay - the poses have no
dependency on load success.  In part_000 the error callback only logs, the
reference stays unresolved, the next frame still renders, and a pick whose
ray hits nothing (the failed scene holds no pickable meshes) is a no-op:
the worst-case degraded mode is a scene that renders where clicking does
nothing. -/
theorem c9_theorem (s : MainJs.MState) (t : PartZero.PState) (now : ℚ) :
    (MainJs.mainLoadError s).monitorMesh = some MainJs.proceduralScreen ∧
    (MainJs.mainLoadError s).consoleLog
      = "GLB load failed, building procedural desk instead" :: s.consoleLog ∧
    (MainJs.mainLoadError s).camPos = s.camPos ∧
    (MainJs.mainLoadError s).controlsEnabled = s.controlsEnabled ∧
    (MainJs.mainLoadError s).overlayVisible = s.overlayVisible ∧
    (MainJs.animateStep now (MainJs.mainLoadError s)).framesRendered
      = s.framesRendered + 1 ∧
    (MainJs.mainFocusComplete (MainJs.focusOnMonitor (MainJs.mainLoadError s))).camPos
      = MainJs.SIT_POS ∧
    (MainJs.mainFocusComplete (MainJs.focusOnMonitor
        (MainJs.mainLoadError s))).overlayVisible = true ∧
    (PartZero.partLoadError t).monitorMesh = t.monitorMesh ∧
    (PartZero.partLoadError t).consoleLog = "An error happened" :: t.consoleLog ∧
    (PartZero.partAnimate (PartZero.partLoadError t)).framesRendered
      = t.framesRendered + 1 ∧
    PartZero.onPointerDown [] (PartZero.partLoadError t)
      = PartZero.partLoadError t := by
  have hn : ¬ (MainJs.focusOnMonitor (MainJs.mainLoadError s)).focusInflight = 0 := by
    simp [MainJs.focusOnMonitor, MainJs.mainLoadError]
  refine ⟨rfl, rfl, rfl, rfl, rfl, rfl, ?_, ?_, rfl, rfl, rfl, PartZero.pd_nil _⟩
  · rw [MainJs.mainFocusComplete_pos _ hn]
    exact MainJs.mainFocusSample_end _
  · rw [MainJs.mainFocusComplete_pos _ hn]
    rfl

/-- C10: in src/src/main.js, focusOnMonitor with the monitor reference
unresolved returns at once with the whole state unchanged, and on every
reachable state with the reference unresolved the overlay is hidden and no
focus tween is in flight - the overlay can never open while the interactive
surface is unresolved. -/
theorem c10_theorem (s t : MainJs.MState) (h1 : s.monitorMesh = none)
    (h2 : MainJs.ReachM t) (h3 : t.monitorMesh = none) :
    MainJs.focusOnMonitor s = s ∧
    t.overlayVisible = false ∧
    t.focusInflight = 0 := by
  refine ⟨?_, ((MainJs.invM_of_reach t h2).1 h3).1,
          ((MainJs.invM_of_reach t h2).1 h3).2⟩
  unfold MainJs.focusOnMonitor
  rw [h1]

/-- C10, witness at the startup state (reference unresolved). -/
theorem c10_witness :
    MainJs.focusOnMonitor MainJs.initM = MainJs.initM ∧
    MainJs.initM.overlayVisible = false ∧
    MainJs.initM.focusInflight = 0 :=
  c10_theorem MainJs.initM MainJs.initM rfl MainJs.ReachM.init rfl
